import Mathlib

/-!
Verification development for the mini_bank transaction-processing core.

The Go source is shallowly embedded:
* `shopspring/decimal` values (arbitrary-precision decimals) are embedded as an
  integer coefficient together with a base-10 exponent (`Decimal`); the
  library's `Add`/`Sub`/`Cmp` rescale both operands to the smaller exponent and
  operate on the coefficients, which is reproduced here.
* Go `time.Time` values are embedded as abstract `Nat` instants; every method
  that calls `time.Now()` receives the current instant as an explicit `now`
  parameter.
* pointer-receiver entity methods that mutate the receiver and return an
  `error` are embedded as pure functions returning
  `Option DomainError × <entity>`: the second component is the receiver as
  observable after the call (unchanged whenever the method returned early with
  an error, exactly as in the source).
* fallible constructors are embedded as `Except DomainError _`.
-/

namespace MiniBank

/-! ## Decimal (shopspring/decimal), exact base-10 arithmetic -/

/-- An arbitrary-precision decimal: `val * 10 ^ exp`, mirroring
`shopspring/decimal.Decimal` (big-integer coefficient, int32 exponent). -/
structure Decimal where
  val : Int
  exp : Int
  deriving DecidableEq, Repr

namespace Decimal

/-- Coefficient of `d` after rescaling to exponent `e ≤ d.exp`
(shopspring `rescale`). -/
def rescaleVal (d : Decimal) (e : Int) : Int :=
  d.val * 10 ^ (d.exp - e).toNat

/-- `Decimal.Add`: rescale both operands to the smaller exponent and add
coefficients. -/
def add (a b : Decimal) : Decimal :=
  let e := min a.exp b.exp
  ⟨a.rescaleVal e + b.rescaleVal e, e⟩

/-- `Decimal.Sub`: rescale both operands to the smaller exponent and subtract
coefficients. -/
def sub (a b : Decimal) : Decimal :=
  let e := min a.exp b.exp
  ⟨a.rescaleVal e - b.rescaleVal e, e⟩

/-- `Decimal.IsZero`: the coefficient's sign is 0. -/
def isZero (d : Decimal) : Bool := d.val == 0

/-- `Decimal.IsPositive`: the coefficient's sign is 1. -/
def isPositive (d : Decimal) : Bool := 0 < d.val

/-- `Decimal.IsNegative`: the coefficient's sign is -1. -/
def isNegative (d : Decimal) : Bool := d.val < 0

/-- `Decimal.Equal` (`Cmp == 0`): rescale to the common exponent and compare
coefficients. -/
def equal (a b : Decimal) : Bool :=
  let e := min a.exp b.exp
  a.rescaleVal e == b.rescaleVal e

/-- The exact rational value of a decimal. -/
def toRat (d : Decimal) : ℚ := (d.val : ℚ) * (10 : ℚ) ^ d.exp

end Decimal

/-! ## Money (domain/vo/money.go) -/

/-- `vo.Money`: wraps a decimal amount. -/
structure Money where
  amount : Decimal
  deriving DecidableEq, Repr

namespace Money

/-- `Money.Amount`. -/
def Amount (m : Money) : Decimal := m.amount

/-- `Money.IsZero`. -/
def IsZero (m : Money) : Bool := m.amount.isZero

/-- `Money.IsPositive`. -/
def IsPositive (m : Money) : Bool := m.amount.isPositive

/-- `Money.IsNegative`. -/
def IsNegative (m : Money) : Bool := m.amount.isNegative

/-- `Money.Add`: always returns a nil error in the source, embedded as an
`Except` that is always `.ok`. -/
def Add (m other : Money) : Except String Money :=
  .ok ⟨m.amount.add other.amount⟩

/-- `Money.Subtract`: always returns a nil error in the source. -/
def Subtract (m other : Money) : Except String Money :=
  .ok ⟨m.amount.sub other.amount⟩

/-- `Money.Equal`: exact decimal comparison. -/
def Equal (m other : Money) : Bool := m.amount.equal other.amount

/-- Exact rational value of a `Money`. -/
def toRat (m : Money) : ℚ := m.amount.toRat

end Money

/-! ## Status value objects (domain/vo/account_status.go, transaction_status) -/

/-- `vo.AccountStatus` is a Go string type. -/
abbrev AccountStatus := String

namespace AccountStatus

def IsValid (s : AccountStatus) : Bool :=
  match s with
  | "ACTIVE" | "INACTIVE" | "SUSPENDED" => true
  | _ => false

def IsActive (s : AccountStatus) : Bool := s == "ACTIVE"

def CanTransact (s : AccountStatus) : Bool := s == "ACTIVE"

/-- `AccountStatus.CanTransitionTo`. -/
def CanTransitionTo (s target : AccountStatus) : Bool :=
  match s with
  | "ACTIVE" => target == "INACTIVE" || target == "SUSPENDED"
  | "INACTIVE" => target == "ACTIVE" || target == "SUSPENDED"
  | "SUSPENDED" => target == "ACTIVE" || target == "INACTIVE"
  | _ => false

end AccountStatus

/-- `vo.TransactionStatus` is a Go string type. -/
abbrev TransactionStatus := String

namespace TransactionStatus

def IsValid (s : TransactionStatus) : Bool :=
  match s with
  | "PENDING" | "COMPLETED" | "FAILED" | "CANCELLED" => true
  | _ => false

def IsPending (s : TransactionStatus) : Bool := s == "PENDING"

def IsCompleted (s : TransactionStatus) : Bool := s == "COMPLETED"

/-- `TransactionStatus.CanTransitionTo`. -/
def CanTransitionTo (s target : TransactionStatus) : Bool :=
  match s with
  | "PENDING" =>
      target == "COMPLETED" || target == "FAILED" || target == "CANCELLED"
  | "COMPLETED" => false
  | "FAILED" => target == "CANCELLED"
  | "CANCELLED" => false
  | _ => false

end TransactionStatus

/-- `vo.TransactionType` is a Go string type. -/
abbrev TransactionType := String

/-- `vo.AccountID` wraps a string; `IsEmpty` tests the empty string. -/
abbrev AccountID := String

def AccountID.IsEmpty (id : AccountID) : Bool := id == ""

/-- `vo.TransactionID` wraps a string. -/
abbrev TransactionID := String

/-! ## Domain errors (domain/error/error.go)

Sentinel errors become nullary constructors; `fmt.Errorf("... %w", err)`
wrappings that annotate a sentinel with context become constructors carrying
that context; `ValidationError`/`BusinessError` carry their fields. -/

inductive DomainError where
  | errInvalidTransactionAmount
  | errMissingAccountID
  | errSameAccountTransfer
  | errTransactionAlreadyInProgress
  | errTransactionNotFound
  | errTransactionCannotBeConfirmed (status : TransactionStatus)
  | errTransactionCannotBeCancelled (status : TransactionStatus)
  | errAccountNotFound
  | errInsufficientBalance
  | errAccountCannotTransact
  | errInvalidInput
  | errUnsupportedType (t : TransactionType)
  | validationError (field message : String)
  | businessError (code message : String)
  | moneyError (msg : String)
  | wrapDebit (e : DomainError)
  | wrapCredit (e : DomainError)
  | wrapAcquireLock (e : DomainError)
  | infraCache (msg : String)
  deriving DecidableEq, Repr

/-! ## Account entity (domain/entity/account.go) -/

/-- `entity.Account`. -/
structure Account where
  id : AccountID
  accountName : String
  balance : Money
  status : AccountStatus
  createdAt : Nat
  updatedAt : Nat
  deriving DecidableEq, Repr

namespace Account

/-- `Account.Debit`: rejects non-positive amounts, computes the new balance,
rejects a negative result, otherwise commits the balance and bumps
`UpdatedAt`. -/
def Debit (a : Account) (amount : Money) (now : Nat) :
    Option DomainError × Account :=
  if amount.IsZero || !amount.IsPositive then
    (some .errInvalidTransactionAmount, a)
  else
    match a.balance.Subtract amount with
    | .error e => (some (.moneyError e), a)
    | .ok newBalance =>
      if newBalance.Amount.isNegative then
        (some .errInsufficientBalance, a)
      else
        (none, { a with balance := newBalance, updatedAt := now })

/-- `Account.Credit`: rejects non-positive amounts, otherwise adds and commits
the balance and bumps `UpdatedAt`. -/
def Credit (a : Account) (amount : Money) (now : Nat) :
    Option DomainError × Account :=
  if amount.IsZero || !amount.IsPositive then
    (some .errInvalidTransactionAmount, a)
  else
    match a.balance.Add amount with
    | .error e => (some (.moneyError e), a)
    | .ok newBalance =>
      (none, { a with balance := newBalance, updatedAt := now })

/-- `Account.SetStatus`: validates the target status and the transition table,
then commits and bumps `UpdatedAt`. -/
def SetStatus (a : Account) (status : AccountStatus) (now : Nat) :
    Option DomainError × Account :=
  if !status.IsValid then
    (some (.validationError "status" ("invalid account status: " ++ status)), a)
  else if !(a.status.CanTransitionTo status) then
    (some (.businessError "INVALID_STATUS_TRANSITION"
      ("cannot transition from " ++ a.status ++ " to " ++ status)), a)
  else
    (none, { a with status := status, updatedAt := now })

/-- `Account.CanTransact`. -/
def CanTransact (a : Account) : Bool := a.status.CanTransact

end Account

/-! ## Transaction entity (domain/entity/transaction.go) -/

/-- `entity.Transaction`. -/
structure Transaction where
  id : TransactionID
  fromAccountID : Option AccountID
  toAccountID : Option AccountID
  transactionType : TransactionType
  amount : Money
  description : String
  reference : String
  status : TransactionStatus
  createdAt : Nat
  completedAt : Option Nat
  deriving DecidableEq, Repr

/-- `entity.NewDebitTransaction`. The source generates a fresh id via
`vo.NewTransactionID()` and stamps `time.Now()`; both are passed in
explicitly (`newID`, `now`). -/
def NewDebitTransaction (fromAccountID : AccountID) (amount : Money)
    (description reference : String) (newID : TransactionID) (now : Nat) :
    Except DomainError Transaction :=
  if fromAccountID.IsEmpty then
    .error (.validationError "fromAccountID"
      "from account ID is required for debit transaction")
  else if amount.IsZero then
    .error .errInvalidTransactionAmount
  else
    .ok { id := newID, fromAccountID := some fromAccountID,
          toAccountID := none, transactionType := "DEBIT", amount := amount,
          description := description.trim, reference := reference.trim,
          status := "PENDING", createdAt := now, completedAt := none }

/-- `entity.NewCreditTransaction`. -/
def NewCreditTransaction (toAccountID : AccountID) (amount : Money)
    (description reference : String) (newID : TransactionID) (now : Nat) :
    Except DomainError Transaction :=
  if toAccountID.IsEmpty then
    .error (.validationError "toAccountID"
      "to account ID is required for credit transaction")
  else if amount.IsZero then
    .error .errInvalidTransactionAmount
  else
    .ok { id := newID, fromAccountID := none,
          toAccountID := some toAccountID, transactionType := "CREDIT",
          amount := amount, description := description.trim,
          reference := reference.trim, status := "PENDING", createdAt := now,
          completedAt := none }

/-- `entity.NewTransferTransaction`. -/
def NewTransferTransaction (fromAccountID toAccountID : AccountID)
    (amount : Money) (description reference : String) (newID : TransactionID)
    (now : Nat) : Except DomainError Transaction :=
  if fromAccountID.IsEmpty then
    .error (.validationError "fromAccountID"
      "from account ID is required for transfer transaction")
  else if toAccountID.IsEmpty then
    .error (.validationError "toAccountID"
      "to account ID is required for transfer transaction")
  else if fromAccountID == toAccountID then
    .error .errSameAccountTransfer
  else if amount.IsZero then
    .error .errInvalidTransactionAmount
  else
    .ok { id := newID, fromAccountID := some fromAccountID,
          toAccountID := some toAccountID, transactionType := "TRANSFER",
          amount := amount, description := description.trim,
          reference := reference.trim, status := "PENDING", createdAt := now,
          completedAt := none }

namespace Transaction

/-- `Transaction.MarkAsCompleted`: checks the transition table, then sets the
status and stamps `CompletedAt` with `time.Now()` (passed as `now`). -/
def MarkAsCompleted (t : Transaction) (now : Nat) :
    Option DomainError × Transaction :=
  if !(t.status.CanTransitionTo "COMPLETED") then
    (some (.businessError "INVALID_STATUS_TRANSITION"
      ("cannot transition from " ++ t.status ++ " to COMPLETED")), t)
  else
    (none, { t with status := "COMPLETED", completedAt := some now })

/-- `Transaction.MarkAsFailed`: checks the transition table, then sets the
status (no timestamp is touched in the source). -/
def MarkAsFailed (t : Transaction) : Option DomainError × Transaction :=
  if !(t.status.CanTransitionTo "FAILED") then
    (some (.businessError "INVALID_STATUS_TRANSITION"
      ("cannot transition from " ++ t.status ++ " to FAILED")), t)
  else
    (none, { t with status := "FAILED" })

/-- `Transaction.MarkAsCancelled`: checks the transition table, then sets the
status (no timestamp is touched in the source). -/
def MarkAsCancelled (t : Transaction) : Option DomainError × Transaction :=
  if !(t.status.CanTransitionTo "CANCELLED") then
    (some (.businessError "INVALID_STATUS_TRANSITION"
      ("cannot transition from " ++ t.status ++ " to CANCELLED")), t)
  else
    (none, { t with status := "CANCELLED" })

end Transaction

/-! ## Key-value stores

Repositories (`AccountRepository`, `TransactionRepository`) and the
`CacheService` are external collaborators consumed through interfaces; they are
embedded as in-memory association lists. `GetByID` is a lookup (`none` models
the not-found error), `Update`/`Create` replace-or-insert the row keyed by the
entity's id. -/

abbrev Store (κ β : Type) : Type := List (κ × β)

namespace Store

def get {κ β : Type} [DecidableEq κ] : Store κ β → κ → Option β
  | [], _ => none
  | (k', v) :: rest, k => if k' = k then some v else get rest k

def set {κ β : Type} [DecidableEq κ] : Store κ β → κ → β → Store κ β
  | [], k, v => [(k, v)]
  | (k', v') :: rest, k, v =>
      if k' = k then (k, v) :: rest else (k', v') :: set rest k v

def del {κ β : Type} [DecidableEq κ] : Store κ β → κ → Store κ β
  | [], _ => []
  | (k', v') :: rest, k =>
      if k' = k then del rest k else (k', v') :: del rest k

end Store

/-! ## Cache keys and entries

The source builds cache keys with `fmt.Sprintf` from disjoint literal
prefixes (`"confirm_transaction:%s"`, `"lock:transaction:%s"`,
`"transaction:%s"`, `"account:%s"`). The key space is embedded as an inductive
type with one constructor per format string, which models exactly that
disjointness. A cached value is either a serialized `TransactionResponse` or a
lock token; `cache.Get(key, &TransactionResponse)` only succeeds on the
former. -/

inductive CacheKey where
  | confirmTxn (id : TransactionID)
  | txn (id : TransactionID)
  | lockTxn (id : TransactionID)
  | account (id : AccountID)
  deriving DecidableEq, Repr

/-- `dto.TransactionResponse` (internal/application/dto/transaction.go).
`Amount` is produced by `InexactFloat64()` in the source; the deterministic
float conversion is embedded as the exact decimal it converts (the claims only
ever compare conversions of equal decimals). -/
structure TransactionResponse where
  id : String
  fromAccountID : Option String
  toAccountID : Option String
  transactionType : String
  amount : Decimal
  description : String
  reference : String
  status : String
  createdAt : Nat
  completedAt : Option Nat
  deriving DecidableEq, Repr

/-- `dto.TransactionMapper.ToResponse`. -/
def ToResponse (t : Transaction) : TransactionResponse :=
  { id := t.id, fromAccountID := t.fromAccountID,
    toAccountID := t.toAccountID, transactionType := t.transactionType,
    amount := t.amount.Amount, description := t.description,
    reference := t.reference, status := t.status, createdAt := t.createdAt,
    completedAt := t.completedAt }

inductive CacheEntry where
  | response (r : TransactionResponse)
  | lockTok (v : String)
  deriving DecidableEq, Repr

/-- Shared mutable state seen by the use case: the two repositories and the
cache backend. -/
structure SysState where
  transactions : Store TransactionID Transaction
  accounts : Store AccountID Account
  cache : Store CacheKey CacheEntry
  deriving DecidableEq, Repr

/-- Environment of one call: the current instant (`time.Now()`) and whether
the cache/lock backend accepts writes (a failed `cache.Set` returns an
error in the source). -/
structure Env where
  now : Nat
  cacheOk : Bool
  deriving DecidableEq, Repr

/-- `cache.Set`: the `Bool` is `true` iff the write succeeded (call sites
other than lock acquisition ignore it, as the source logs and continues). -/
def cacheSetOp (env : Env) (s : SysState) (k : CacheKey) (v : CacheEntry) :
    Bool × SysState :=
  if env.cacheOk then (true, { s with cache := s.cache.set k v })
  else (false, s)

/-- `cache.Delete`: failures are logged and ignored at every call site. -/
def cacheDelOp (env : Env) (s : SysState) (k : CacheKey) : SysState :=
  if env.cacheOk then { s with cache := s.cache.del k } else s

/-- `cache.Get(key, &TransactionResponse)`: succeeds only when the key holds a
serialized response. -/
def cacheGetResponse (s : SysState) (k : CacheKey) : Option TransactionResponse :=
  match s.cache.get k with
  | some (.response r) => some r
  | _ => none

/-! ## Transaction use case (internal/application/transaction.go)

The embedding starts after the request id has been parsed
(`vo.NewTransactionIDFromString`); id-format validation is orthogonal to the
claims. Repository `Update`/`Create` on the in-memory stores always succeed,
so the source's log-and-return branches for repository failures have no
corresponding branch here. -/

/-- `acquireDistributedLock`: a plain `cache.Set` of a token under the lock
key with a TTL — it does not check for an existing holder. Returns
`.ok true` whenever the write succeeds and an error only when the write
fails. -/
def acquireDistributedLock (env : Env) (s : SysState) (key : CacheKey) :
    Except DomainError Bool × SysState :=
  let lockValue := "lock_" ++ toString env.now
  match cacheSetOp env s key (.lockTok lockValue) with
  | (true, s') => (.ok true, s')
  | (false, s') => (.error (.infraCache "cache set failed"), s')

/-- `releaseLock`: `cache.Delete` of the lock key. -/
def releaseLock (env : Env) (s : SysState) (key : CacheKey) : SysState :=
  cacheDelOp env s key

/-- `invalidateAccountCaches`: deletes the `account:` cache entries of the
involved account(s); failures are logged and ignored. -/
def invalidateAccountCaches (env : Env) (s : SysState) (t : Transaction) :
    SysState :=
  let s1 := match t.fromAccountID with
    | some fid => cacheDelOp env s (.account fid)
    | none => s
  match t.toAccountID with
  | some tid => cacheDelOp env s1 (.account tid)
  | none => s1

/-- `processDebitTransaction`: load the source account, check it can
transact, debit it, persist it. -/
def processDebitTransaction (env : Env) (s : SysState) (t : Transaction) :
    Except DomainError Unit × SysState :=
  match t.fromAccountID with
  | none => (.error .errMissingAccountID, s)
  | some fid =>
    match s.accounts.get fid with
    | none => (.error .errAccountNotFound, s)
    | some account =>
      if !account.CanTransact then (.error .errAccountCannotTransact, s)
      else
        match account.Debit t.amount env.now with
        | (some e, _) => (.error e, s)
        | (none, account') =>
          (.ok (), { s with accounts := s.accounts.set account'.id account' })

/-- `processCreditTransaction`: symmetric to the debit case on the
destination account. -/
def processCreditTransaction (env : Env) (s : SysState) (t : Transaction) :
    Except DomainError Unit × SysState :=
  match t.toAccountID with
  | none => (.error .errMissingAccountID, s)
  | some tid =>
    match s.accounts.get tid with
    | none => (.error .errAccountNotFound, s)
    | some account =>
      if !account.CanTransact then (.error .errAccountCannotTransact, s)
      else
        match account.Credit t.amount env.now with
        | (some e, _) => (.error e, s)
        | (none, account') =>
          (.ok (), { s with accounts := s.accounts.set account'.id account' })

/-- `processTransferTransaction`: load both accounts, check both can
transact, debit the source; if the credit of the destination fails, apply a
compensating credit to the source (error ignored) and return the credit's
error; persist both accounts only after both mutations succeed. -/
def processTransferTransaction (env : Env) (s : SysState) (t : Transaction) :
    Except DomainError Unit × SysState :=
  match t.fromAccountID, t.toAccountID with
  | none, _ => (.error .errMissingAccountID, s)
  | _, none => (.error .errMissingAccountID, s)
  | some fid, some tid =>
    match s.accounts.get fid with
    | none => (.error .errAccountNotFound, s)
    | some fromAccount =>
      match s.accounts.get tid with
      | none => (.error .errAccountNotFound, s)
      | some toAccount =>
        if !fromAccount.CanTransact then (.error .errAccountCannotTransact, s)
        else if !toAccount.CanTransact then
          (.error .errAccountCannotTransact, s)
        else
          match fromAccount.Debit t.amount env.now with
          | (some e, _) => (.error (.wrapDebit e), s)
          | (none, fromAccount') =>
            match toAccount.Credit t.amount env.now with
            | (some e, _) =>
              -- Rollback the debit if credit fails (error ignored); the
              -- rolled-back local copy is never persisted.
              let _rolledBack := (fromAccount'.Credit t.amount env.now).2
              (.error (.wrapCredit e), s)
            | (none, toAccount') =>
              let s1 :=
                { s with accounts := s.accounts.set fromAccount'.id fromAccount' }
              let s2 :=
                { s1 with accounts := s1.accounts.set toAccount'.id toAccount' }
              (.ok (), s2)

/-- `processTransaction`: dispatch on the transaction type. -/
def processTransaction (env : Env) (s : SysState) (t : Transaction) :
    Except DomainError Unit × SysState :=
  match t.transactionType with
  | "DEBIT" => processDebitTransaction env s t
  | "CREDIT" => processCreditTransaction env s t
  | "TRANSFER" => processTransferTransaction env s t
  | ty => (.error (.errUnsupportedType ty), s)

deriving instance DecidableEq for Except

/-- Outcome of the first half of `ConfirmTransaction`: either the call is
finished (cached result, lock denied, terminal-status short circuit, …) or it
holds the lock and proceeds to processing with its loaded copy of the
transaction. -/
inductive ConfirmStep where
  | done (r : Except DomainError TransactionResponse)
  | proceed (txn : Transaction)
  deriving DecidableEq, Repr

/-- First half of `ConfirmTransaction`, up to and including the load of the
transaction and its status checks: idempotency-cache lookup, lock
acquisition, repository load, already-COMPLETED short circuit, and the
can-transition check. Every early return after the lock was acquired releases
it (the source's `defer`). -/
def confirmLoadPhase (env : Env) (s : SysState) (id : TransactionID) :
    ConfirmStep × SysState :=
  let idemKey := CacheKey.confirmTxn id
  match cacheGetResponse s idemKey with
  | some cached => (.done (.ok cached), s)
  | none =>
    let lockKey := CacheKey.lockTxn id
    match acquireDistributedLock env s lockKey with
    | (.error e, s1) => (.done (.error (.wrapAcquireLock e)), s1)
    | (.ok lockAcquired, s1) =>
      if !lockAcquired then
        (.done (.error .errTransactionAlreadyInProgress), s1)
      else
        match s1.transactions.get id with
        | none => (.done (.error .errTransactionNotFound),
                   releaseLock env s1 lockKey)
        | some txn =>
          if txn.status.IsCompleted then
            let response := ToResponse txn
            let s2 := (cacheSetOp env s1 idemKey (.response response)).2
            (.done (.ok response), releaseLock env s2 lockKey)
          else if !(txn.status.CanTransitionTo "COMPLETED") then
            (.done (.error (.errTransactionCannotBeConfirmed txn.status)),
             releaseLock env s1 lockKey)
          else
            (.proceed txn, s1)

/-- Second half of `ConfirmTransaction`, given the loaded transaction:
process it; on failure mark it FAILED and persist (best effort); on success
mark it COMPLETED, persist, fill the idempotency and lookup caches, and
invalidate the account caches. The lock is released on every exit (the
source's `defer`). -/
def confirmProcessPhase (env : Env) (s : SysState) (id : TransactionID)
    (txn : Transaction) : Except DomainError TransactionResponse × SysState :=
  let idemKey := CacheKey.confirmTxn id
  let lockKey := CacheKey.lockTxn id
  match processTransaction env s txn with
  | (.error e, s1) =>
    match txn.MarkAsFailed with
    | (some _, _) => (.error e, releaseLock env s1 lockKey)
    | (none, txnF) =>
      let s2 := { s1 with transactions := s1.transactions.set txnF.id txnF }
      (.error e, releaseLock env s2 lockKey)
  | (.ok _, s1) =>
    match txn.MarkAsCompleted env.now with
    | (some e, _) => (.error e, releaseLock env s1 lockKey)
    | (none, txnC) =>
      let s2 := { s1 with transactions := s1.transactions.set txnC.id txnC }
      let response := ToResponse txnC
      let s3 := (cacheSetOp env s2 idemKey (.response response)).2
      let s4 := (cacheSetOp env s3 (.txn id) (.response response)).2
      let s5 := invalidateAccountCaches env s4 txnC
      (.ok response, releaseLock env s5 lockKey)

/-- `ConfirmTransaction` (after id parsing): the sequential composition of the
two phases. -/
def ConfirmTransaction (env : Env) (s : SysState) (id : TransactionID) :
    Except DomainError TransactionResponse × SysState :=
  match confirmLoadPhase env s id with
  | (.done r, s1) => (r, s1)
  | (.proceed txn, s1) => confirmProcessPhase env s1 id txn

/-- `CancelTransaction` (after id parsing): only PENDING transactions can be
cancelled; on success the transaction is marked CANCELLED, persisted, and the
lookup cache refreshed. -/
def CancelTransaction (env : Env) (s : SysState) (id : TransactionID) :
    Except DomainError Unit × SysState :=
  match s.transactions.get id with
  | none => (.error .errTransactionNotFound, s)
  | some txn =>
    if !txn.status.IsPending then
      (.error (.errTransactionCannotBeCancelled txn.status), s)
    else
      match txn.MarkAsCancelled with
      | (some e, _) => (.error e, s)
      | (none, txnX) =>
        let s1 := { s with transactions := s.transactions.set txnX.id txnX }
        let s2 := (cacheSetOp env s1 (.txn id) (.response (ToResponse txnX))).2
        (.ok (), s2)

/-! ## Spec-side transition tables (spec §4.2/§4.3)

These two definitions follow the specification's words, not the source; they
are compared against the source's `CanTransitionTo`-guarded methods. -/

/-- The Account table of spec §4.2: ACTIVE → {INACTIVE, SUSPENDED},
INACTIVE → {ACTIVE, SUSPENDED}, SUSPENDED → {ACTIVE, INACTIVE}. -/
def specAccountTransitions : List (AccountStatus × AccountStatus) :=
  [("ACTIVE", "INACTIVE"), ("ACTIVE", "SUSPENDED"),
   ("INACTIVE", "ACTIVE"), ("INACTIVE", "SUSPENDED"),
   ("SUSPENDED", "ACTIVE"), ("SUSPENDED", "INACTIVE")]

/-- The Transaction table of spec §4.3: PENDING → {COMPLETED, FAILED,
CANCELLED}, FAILED → {CANCELLED}, COMPLETED and CANCELLED terminal. -/
def specTxnTransitions : List (TransactionStatus × TransactionStatus) :=
  [("PENDING", "COMPLETED"), ("PENDING", "FAILED"), ("PENDING", "CANCELLED"),
   ("FAILED", "CANCELLED")]

/-! # Theorems -/

/-! ## Decimal arithmetic lemmas -/

theorem Decimal.rescaleVal_spec (d : Decimal) (e : Int) (h : e ≤ d.exp) :
    ((d.rescaleVal e : Int) : ℚ) * (10 : ℚ) ^ e = d.toRat := by
  unfold Decimal.rescaleVal Decimal.toRat
  push_cast
  rw [mul_assoc, ← zpow_natCast (10 : ℚ) (d.exp - e).toNat,
    Int.toNat_of_nonneg (by omega), ← zpow_add₀ (by norm_num : (10 : ℚ) ≠ 0)]
  ring_nf

theorem Decimal.add_toRat (a b : Decimal) :
    (a.add b).toRat = a.toRat + b.toRat := by
  unfold Decimal.add
  have ha := a.rescaleVal_spec (min a.exp b.exp) (min_le_left _ _)
  have hb := b.rescaleVal_spec (min a.exp b.exp) (min_le_right _ _)
  simp only [Decimal.toRat] at *
  push_cast
  rw [add_mul, ha, hb]

theorem Decimal.sub_toRat (a b : Decimal) :
    (a.sub b).toRat = a.toRat - b.toRat := by
  unfold Decimal.sub
  have ha := a.rescaleVal_spec (min a.exp b.exp) (min_le_left _ _)
  have hb := b.rescaleVal_spec (min a.exp b.exp) (min_le_right _ _)
  simp only [Decimal.toRat] at *
  push_cast
  rw [sub_mul, ha, hb]

theorem Decimal.zpow_ten_pos (e : Int) : (0 : ℚ) < (10 : ℚ) ^ e :=
  zpow_pos (by norm_num) e

theorem Decimal.equal_iff (a b : Decimal) :
    a.equal b = true ↔ a.toRat = b.toRat := by
  unfold Decimal.equal
  have ha := a.rescaleVal_spec (min a.exp b.exp) (min_le_left _ _)
  have hb := b.rescaleVal_spec (min a.exp b.exp) (min_le_right _ _)
  rw [beq_iff_eq]
  constructor
  · intro h
    rw [← ha, ← hb, h]
  · intro h
    rw [← ha, ← hb] at h
    have h10 : ((10 : ℚ) ^ min a.exp b.exp) ≠ 0 := (zpow_ten_pos _).ne'
    exact_mod_cast mul_right_cancel₀ h10 h

theorem Decimal.isZero_iff (d : Decimal) : d.isZero = true ↔ d.toRat = 0 := by
  unfold Decimal.isZero Decimal.toRat
  rw [beq_iff_eq]
  constructor
  · intro h
    rw [h]
    simp
  · intro h
    rcases mul_eq_zero.mp h with h' | h'
    · exact_mod_cast h'
    · exact absurd h' (zpow_ten_pos _).ne'

theorem Decimal.isPositive_iff (d : Decimal) :
    d.isPositive = true ↔ 0 < d.toRat := by
  unfold Decimal.isPositive Decimal.toRat
  rw [decide_eq_true_eq]
  constructor
  · intro h
    exact mul_pos (by exact_mod_cast h) (zpow_ten_pos _)
  · intro h
    by_contra hn
    push_neg at hn
    have hv : (d.val : ℚ) ≤ 0 := by exact_mod_cast hn
    nlinarith [Decimal.zpow_ten_pos d.exp]

theorem Decimal.isNegative_iff (d : Decimal) :
    d.isNegative = true ↔ d.toRat < 0 := by
  unfold Decimal.isNegative Decimal.toRat
  rw [decide_eq_true_eq]
  constructor
  · intro h
    have hv : (d.val : ℚ) < 0 := by exact_mod_cast h
    exact mul_neg_of_neg_of_pos hv (zpow_ten_pos _)
  · intro h
    by_contra hn
    push_neg at hn
    have hv : (0 : ℚ) ≤ (d.val : ℚ) := by exact_mod_cast hn
    nlinarith [Decimal.zpow_ten_pos d.exp]

/-! ## Money lemmas -/

theorem Money.isZero_iff_val (m : Money) : m.IsZero = true ↔ m.toRat = 0 :=
  Decimal.isZero_iff m.amount

theorem Money.isPositive_iff_val (m : Money) :
    m.IsPositive = true ↔ 0 < m.toRat :=
  Decimal.isPositive_iff m.amount

theorem Money.isNegative_iff_val (m : Money) :
    m.IsNegative = true ↔ m.toRat < 0 :=
  Decimal.isNegative_iff m.amount

theorem Money.equal_iff_val (m n : Money) :
    m.Equal n = true ↔ m.toRat = n.toRat :=
  Decimal.equal_iff m.amount n.amount

theorem Money.isZero_false_of_pos {m : Money} (h : 0 < m.toRat) :
    m.IsZero = false := by
  cases hz : m.IsZero
  · rfl
  · exact absurd ((Money.isZero_iff_val m).mp hz) h.ne'

theorem Money.isPositive_false_of_nonpos {m : Money} (h : m.toRat ≤ 0) :
    m.IsPositive = false := by
  cases hp : m.IsPositive
  · rfl
  · exact absurd ((Money.isPositive_iff_val m).mp hp) (not_lt.mpr h)

/-! ## Store lemmas -/

theorem Store.get_set_same {κ β : Type} [DecidableEq κ] (s : Store κ β)
    (k : κ) (v : β) : Store.get (Store.set s k v) k = some v := by
  induction s with
  | nil => simp [Store.get, Store.set]
  | cons hd tl ih =>
    obtain ⟨k', v'⟩ := hd
    by_cases h : k' = k
    · simp [Store.get, Store.set, h]
    · simp [Store.get, Store.set, h, ih]

theorem Store.get_set_ne {κ β : Type} [DecidableEq κ] (s : Store κ β)
    (k k' : κ) (v : β) (h : k ≠ k') :
    Store.get (Store.set s k v) k' = Store.get s k' := by
  induction s with
  | nil => simp [Store.get, Store.set, h]
  | cons hd tl ih =>
    obtain ⟨k₀, v₀⟩ := hd
    by_cases h₀ : k₀ = k
    · subst h₀
      simp [Store.get, Store.set, h]
    · simp [Store.get, Store.set, h₀, ih]

theorem Store.get_del_ne {κ β : Type} [DecidableEq κ] (s : Store κ β)
    (k k' : κ) (h : k ≠ k') :
    Store.get (Store.del s k) k' = Store.get s k' := by
  induction s with
  | nil => simp [Store.get, Store.del]
  | cons hd tl ih =>
    obtain ⟨k₀, v₀⟩ := hd
    by_cases h₀ : k₀ = k
    · subst h₀
      simp [Store.get, Store.del, ih, h]
    · simp [Store.get, Store.del, h₀, ih]

/-! ## Claim C10 -/

/-- C10: for all Money values `a` and `b`, `a.Add(b)` followed by
`Subtract(b)` yields a value `Equal` to `a` (exact decimal round-trip), and
`Add`/`Subtract` never return an error. -/
theorem money_add_subtract_roundtrip (a b : Money) :
    ∃ s c : Money, a.Add b = Except.ok s ∧ s.Subtract b = Except.ok c ∧
      c.Equal a = true := by
  refine ⟨⟨a.amount.add b.amount⟩, ⟨(a.amount.add b.amount).sub b.amount⟩,
    rfl, rfl, ?_⟩
  simp only [Money.Equal]
  rw [Decimal.equal_iff, Decimal.sub_toRat, Decimal.add_toRat]
  ring

/-! ## Claim C7 -/

/-- C7: for every Account in any status and every non-positive amount,
`Debit` and `Credit` fail (with the invalid-amount error) and leave the whole
account — in particular Balance and UpdatedAt — unchanged. -/
theorem account_nonpositive_amount_frame (a : Account) (m : Money) (now : Nat)
    (h : m.toRat ≤ 0) :
    a.Debit m now = (some DomainError.errInvalidTransactionAmount, a) ∧
    a.Credit m now = (some DomainError.errInvalidTransactionAmount, a) := by
  have hp := Money.isPositive_false_of_nonpos h
  constructor
  · simp [Account.Debit, hp]
  · simp [Account.Credit, hp]

/-- Witness for C7 at a concrete suspended account and amount -3. -/
theorem account_nonpositive_amount_frame_witness :
    Money.toRat ⟨⟨-3, 0⟩⟩ ≤ 0 ∧
    Account.Debit
        ⟨"2024072912345678", "Alice", ⟨⟨100, 0⟩⟩, "SUSPENDED", 0, 0⟩
        ⟨⟨-3, 0⟩⟩ 7 =
      (some DomainError.errInvalidTransactionAmount,
        ⟨"2024072912345678", "Alice", ⟨⟨100, 0⟩⟩, "SUSPENDED", 0, 0⟩) ∧
    Account.Credit
        ⟨"2024072912345678", "Alice", ⟨⟨100, 0⟩⟩, "SUSPENDED", 0, 0⟩
        ⟨⟨-3, 0⟩⟩ 7 =
      (some DomainError.errInvalidTransactionAmount,
        ⟨"2024072912345678", "Alice", ⟨⟨100, 0⟩⟩, "SUSPENDED", 0, 0⟩) :=
  have h : Money.toRat ⟨⟨-3, 0⟩⟩ ≤ 0 := by
    norm_num [Money.toRat, Decimal.toRat]
  ⟨h, (account_nonpositive_amount_frame _ _ 7 h).1,
    (account_nonpositive_amount_frame _ _ 7 h).2⟩

/-! ## Claim C1 -/

/-- C1: for every Account and strictly positive amount, `Debit` fails with
`InsufficientBalance` and leaves the account unchanged whenever
`balance - amount` would be negative; otherwise it succeeds, the new Balance
equals the old Balance minus the amount, and UpdatedAt is bumped to the
current instant. -/
theorem account_debit_spec (a : Account) (m : Money) (now : Nat)
    (h : 0 < m.toRat) :
    (a.balance.toRat - m.toRat < 0 →
      a.Debit m now = (some DomainError.errInsufficientBalance, a)) ∧
    (0 ≤ a.balance.toRat - m.toRat →
      ∃ b : Money,
        a.Debit m now = (none, { a with balance := b, updatedAt := now }) ∧
        b.toRat = a.balance.toRat - m.toRat) := by
  have hz := Money.isZero_false_of_pos h
  have hp := (Money.isPositive_iff_val m).mpr h
  constructor
  · intro hneg
    have hn : (a.balance.amount.sub m.amount).isNegative = true := by
      rw [Decimal.isNegative_iff, Decimal.sub_toRat]
      exact hneg
    simp [Account.Debit, hz, hp, Money.Subtract, Money.Amount, hn]
  · intro hnonneg
    have hn : (a.balance.amount.sub m.amount).isNegative = false := by
      cases hx : (a.balance.amount.sub m.amount).isNegative
      · rfl
      · rw [Decimal.isNegative_iff, Decimal.sub_toRat] at hx
        exact absurd hx (not_lt.mpr hnonneg)
    refine ⟨⟨a.balance.amount.sub m.amount⟩, ?_, ?_⟩
    · simp [Account.Debit, hz, hp, Money.Subtract, Money.Amount, hn]
    · exact Decimal.sub_toRat a.balance.amount m.amount

/-- Witness for C1: debiting 40 from a balance of 100 succeeds with new
balance 60 and UpdatedAt bumped to 7. -/
theorem account_debit_spec_witness :
    0 < Money.toRat ⟨⟨40, 0⟩⟩ ∧
    (0 : ℚ) ≤ Money.toRat (Money.mk ⟨100, 0⟩) - Money.toRat ⟨⟨40, 0⟩⟩ ∧
    ∃ b : Money,
      Account.Debit
          ⟨"2024072912345678", "Alice", ⟨⟨100, 0⟩⟩, "ACTIVE", 0, 0⟩
          ⟨⟨40, 0⟩⟩ 7 =
        (none,
          { Account.mk "2024072912345678" "Alice" ⟨⟨100, 0⟩⟩ "ACTIVE" 0 0 with
              balance := b, updatedAt := 7 }) ∧
      b.toRat = Money.toRat (Money.mk ⟨100, 0⟩) - Money.toRat ⟨⟨40, 0⟩⟩ :=
  have h : 0 < Money.toRat ⟨⟨40, 0⟩⟩ := by
    norm_num [Money.toRat, Decimal.toRat]
  have h2 : (0 : ℚ) ≤ Money.toRat (Money.mk ⟨100, 0⟩) - Money.toRat ⟨⟨40, 0⟩⟩ := by
    norm_num [Money.toRat, Decimal.toRat]
  ⟨h, h2,
    (account_debit_spec
      ⟨"2024072912345678", "Alice", ⟨⟨100, 0⟩⟩, "ACTIVE", 0, 0⟩
      ⟨⟨40, 0⟩⟩ 7 h).2 h2⟩

/-! ## Claim C4 -/

/-- C4 counterexample: the claim says a factory fails with
`InvalidTransactionAmount` for any amount that is not strictly positive, in
particular for negative amounts. But `NewDebitTransaction` with the strictly
negative amount -5 succeeds and returns a PENDING transaction: the factories
only reject a zero amount. -/
theorem newDebitTransaction_accepts_negative_amount :
    NewDebitTransaction "2024072912345678" ⟨⟨-5, 0⟩⟩ "" ""
        "TXN20240729143045001234" 0 =
      Except.ok
        { id := "TXN20240729143045001234",
          fromAccountID := some "2024072912345678", toAccountID := none,
          transactionType := "DEBIT", amount := ⟨⟨-5, 0⟩⟩,
          description := "".trim, reference := "".trim, status := "PENDING",
          createdAt := 0, completedAt := none } := by
  rfl

/-- C4 amended: each creation factory fails with a `ValidationError` naming
the missing field when a required account reference is absent, fails with
`SameAccountTransfer` when a transfer's from equals to, fails with
`InvalidTransactionAmount` exactly when the amount is zero (negative amounts
are accepted), and otherwise returns a transaction with Status PENDING and
the freshly generated TransactionID. -/
theorem creation_factories_spec (fid tid : AccountID) (m : Money)
    (d r : String) (nid : TransactionID) (now : Nat) :
    (fid.IsEmpty = true →
      NewDebitTransaction fid m d r nid now =
        .error (.validationError "fromAccountID"
          "from account ID is required for debit transaction")) ∧
    (fid.IsEmpty = false → m.toRat = 0 →
      NewDebitTransaction fid m d r nid now =
        .error .errInvalidTransactionAmount) ∧
    (fid.IsEmpty = false → m.toRat ≠ 0 →
      ∃ t, NewDebitTransaction fid m d r nid now = .ok t ∧
        t.status = "PENDING" ∧ t.id = nid ∧ t.amount = m) ∧
    (tid.IsEmpty = true →
      NewCreditTransaction tid m d r nid now =
        .error (.validationError "toAccountID"
          "to account ID is required for credit transaction")) ∧
    (tid.IsEmpty = false → m.toRat = 0 →
      NewCreditTransaction tid m d r nid now =
        .error .errInvalidTransactionAmount) ∧
    (tid.IsEmpty = false → m.toRat ≠ 0 →
      ∃ t, NewCreditTransaction tid m d r nid now = .ok t ∧
        t.status = "PENDING" ∧ t.id = nid ∧ t.amount = m) ∧
    (fid.IsEmpty = true →
      NewTransferTransaction fid tid m d r nid now =
        .error (.validationError "fromAccountID"
          "from account ID is required for transfer transaction")) ∧
    (fid.IsEmpty = false → tid.IsEmpty = true →
      NewTransferTransaction fid tid m d r nid now =
        .error (.validationError "toAccountID"
          "to account ID is required for transfer transaction")) ∧
    (fid.IsEmpty = false → tid.IsEmpty = false → fid = tid →
      NewTransferTransaction fid tid m d r nid now =
        .error .errSameAccountTransfer) ∧
    (fid.IsEmpty = false → tid.IsEmpty = false → fid ≠ tid → m.toRat = 0 →
      NewTransferTransaction fid tid m d r nid now =
        .error .errInvalidTransactionAmount) ∧
    (fid.IsEmpty = false → tid.IsEmpty = false → fid ≠ tid → m.toRat ≠ 0 →
      ∃ t, NewTransferTransaction fid tid m d r nid now = .ok t ∧
        t.status = "PENDING" ∧ t.id = nid ∧ t.amount = m) := by
  refine ⟨?_, ?_, ?_, ?_, ?_, ?_, ?_, ?_, ?_, ?_, ?_⟩
  · intro hf
    simp [NewDebitTransaction, hf]
  · intro hf hm
    simp [NewDebitTransaction, hf, (Money.isZero_iff_val m).mpr hm]
  · intro hf hm
    have hz : m.IsZero = false := by
      cases hz : m.IsZero
      · rfl
      · exact absurd ((Money.isZero_iff_val m).mp hz) hm
    refine ⟨⟨nid, some fid, none, "DEBIT", m, d.trim, r.trim, "PENDING",
      now, none⟩, ?_, rfl, rfl, rfl⟩
    simp [NewDebitTransaction, hf, hz]
  · intro ht
    simp [NewCreditTransaction, ht]
  · intro ht hm
    simp [NewCreditTransaction, ht, (Money.isZero_iff_val m).mpr hm]
  · intro ht hm
    have hz : m.IsZero = false := by
      cases hz : m.IsZero
      · rfl
      · exact absurd ((Money.isZero_iff_val m).mp hz) hm
    refine ⟨⟨nid, none, some tid, "CREDIT", m, d.trim, r.trim, "PENDING",
      now, none⟩, ?_, rfl, rfl, rfl⟩
    simp [NewCreditTransaction, ht, hz]
  · intro hf
    simp [NewTransferTransaction, hf]
  · intro hf ht
    simp [NewTransferTransaction, hf, ht]
  · intro hf ht hsame
    simp [NewTransferTransaction, hf, ht, hsame]
  · intro hf ht hne hm
    simp [NewTransferTransaction, hf, ht, hne, (Money.isZero_iff_val m).mpr hm]
  · intro hf ht hne hm
    have hz : m.IsZero = false := by
      cases hz : m.IsZero
      · rfl
      · exact absurd ((Money.isZero_iff_val m).mp hz) hm
    refine ⟨⟨nid, some fid, some tid, "TRANSFER", m, d.trim, r.trim,
      "PENDING", now, none⟩, ?_, rfl, rfl, rfl⟩
    simp [NewTransferTransaction, hf, ht, hne, hz]

/-- Witness for C4 (amended): a transfer between two distinct accounts with
the (negative, hence non-zero) amount -5 yields a PENDING transaction with
the generated id. -/
theorem creation_factories_spec_witness :
    ∃ t, NewTransferTransaction "2024072912345678" "2024072987654321"
          ⟨⟨-5, 0⟩⟩ "d" "r" "TXN20240729143045001234" 3 = .ok t ∧
      t.status = "PENDING" ∧ t.id = "TXN20240729143045001234" ∧
      t.amount = ⟨⟨-5, 0⟩⟩ :=
  (creation_factories_spec "2024072912345678" "2024072987654321" ⟨⟨-5, 0⟩⟩
    "d" "r" "TXN20240729143045001234" 3).2.2.2.2.2.2.2.2.2.2
    (by decide) (by decide) (by decide)
    (by norm_num [Money.toRat, Decimal.toRat])

/-! ## Claim C5 -/

/-- C5 counterexample: the claim says the mutators "succeed and update the
timestamp exactly when the pair is in the spec's transition tables".
PENDING → FAILED is in the Transaction table and `MarkAsFailed` succeeds, but
it updates no timestamp: the returned transaction carries the old `CreatedAt`
(5) and `CompletedAt` (none) unchanged — the Transaction entity has no other
timestamp field. -/
theorem markAsFailed_updates_no_timestamp :
    Transaction.MarkAsFailed
        ⟨"TXN20240729143045001234", some "2024072912345678", none, "DEBIT",
         ⟨⟨40, 0⟩⟩, "d", "r", "PENDING", 5, none⟩ =
      (none,
        ⟨"TXN20240729143045001234", some "2024072912345678", none, "DEBIT",
         ⟨⟨40, 0⟩⟩, "d", "r", "FAILED", 5, none⟩) := by
  rfl

/-- C5 amended: for every ordered pair of statuses in the Account table and
in the Transaction table, `SetStatus` / `MarkAsCompleted` / `MarkAsFailed` /
`MarkAsCancelled` succeed exactly when the pair is in the spec's transition
tables, and for every other pair (including all self-transitions) they fail
and leave the entity unchanged. On success `SetStatus` bumps `UpdatedAt` and
`MarkAsCompleted` stamps `CompletedAt`; `MarkAsFailed` and `MarkAsCancelled`
change only the status. -/
theorem status_transition_tables (a : Account) (t : Transaction)
    (tgt : AccountStatus) (now : Nat)
    (ha : a.status ∈ ["ACTIVE", "INACTIVE", "SUSPENDED"])
    (htgt : tgt ∈ ["ACTIVE", "INACTIVE", "SUSPENDED"])
    (ht : t.status ∈ ["PENDING", "COMPLETED", "FAILED", "CANCELLED"]) :
    (if (a.status, tgt) ∈ specAccountTransitions then
      a.SetStatus tgt now = (none, { a with status := tgt, updatedAt := now })
    else ∃ e, a.SetStatus tgt now = (some e, a)) ∧
    (if (t.status, "COMPLETED") ∈ specTxnTransitions then
      t.MarkAsCompleted now =
        (none, { t with status := "COMPLETED", completedAt := some now })
    else ∃ e, t.MarkAsCompleted now = (some e, t)) ∧
    (if (t.status, "FAILED") ∈ specTxnTransitions then
      t.MarkAsFailed = (none, { t with status := "FAILED" })
    else ∃ e, t.MarkAsFailed = (some e, t)) ∧
    (if (t.status, "CANCELLED") ∈ specTxnTransitions then
      t.MarkAsCancelled = (none, { t with status := "CANCELLED" })
    else ∃ e, t.MarkAsCancelled = (some e, t)) := by
  simp only [List.mem_cons, List.not_mem_nil, or_false] at ha htgt ht
  refine ⟨?_, ?_, ?_, ?_⟩
  · rcases ha with ha | ha | ha <;> rcases htgt with h2 | h2 | h2 <;>
      simp [specAccountTransitions, ha, h2, Account.SetStatus,
        AccountStatus.IsValid, AccountStatus.CanTransitionTo]
  · rcases ht with h3 | h3 | h3 | h3 <;>
      simp [specTxnTransitions, h3, Transaction.MarkAsCompleted,
        TransactionStatus.CanTransitionTo]
  · rcases ht with h3 | h3 | h3 | h3 <;>
      simp [specTxnTransitions, h3, Transaction.MarkAsFailed,
        TransactionStatus.CanTransitionTo]
  · rcases ht with h3 | h3 | h3 | h3 <;>
      simp [specTxnTransitions, h3, Transaction.MarkAsCancelled,
        TransactionStatus.CanTransitionTo]

/-- Witness for C5 (amended), at an ACTIVE account with target INACTIVE and a
PENDING transaction. -/
theorem status_transition_tables_witness :
    (if (Account.status ⟨"2024072912345678", "A", ⟨⟨1, 0⟩⟩, "ACTIVE", 0, 0⟩,
          ("INACTIVE" : AccountStatus)) ∈ specAccountTransitions then
      Account.SetStatus ⟨"2024072912345678", "A", ⟨⟨1, 0⟩⟩, "ACTIVE", 0, 0⟩
          "INACTIVE" 9 =
        (none, { Account.mk "2024072912345678" "A" ⟨⟨1, 0⟩⟩ "ACTIVE" 0 0 with
            status := "INACTIVE", updatedAt := 9 })
    else ∃ e, Account.SetStatus
        ⟨"2024072912345678", "A", ⟨⟨1, 0⟩⟩, "ACTIVE", 0, 0⟩ "INACTIVE" 9 =
      (some e, ⟨"2024072912345678", "A", ⟨⟨1, 0⟩⟩, "ACTIVE", 0, 0⟩)) ∧
    (if (Transaction.status ⟨"TXN20240729143045001234", some "2024072912345678",
          none, "DEBIT", ⟨⟨40, 0⟩⟩, "d", "r", "PENDING", 5, none⟩,
          ("COMPLETED" : TransactionStatus)) ∈ specTxnTransitions then
      Transaction.MarkAsCompleted
          ⟨"TXN20240729143045001234", some "2024072912345678", none, "DEBIT",
           ⟨⟨40, 0⟩⟩, "d", "r", "PENDING", 5, none⟩ 9 =
        (none, { Transaction.mk "TXN20240729143045001234"
            (some "2024072912345678") none "DEBIT" ⟨⟨40, 0⟩⟩ "d" "r"
            "PENDING" 5 none with
            status := "COMPLETED", completedAt := some 9 })
    else ∃ e, Transaction.MarkAsCompleted
        ⟨"TXN20240729143045001234", some "2024072912345678", none, "DEBIT",
         ⟨⟨40, 0⟩⟩, "d", "r", "PENDING", 5, none⟩ 9 =
      (some e, ⟨"TXN20240729143045001234", some "2024072912345678", none,
        "DEBIT", ⟨⟨40, 0⟩⟩, "d", "r", "PENDING", 5, none⟩)) ∧
    (if (Transaction.status ⟨"TXN20240729143045001234", some "2024072912345678",
          none, "DEBIT", ⟨⟨40, 0⟩⟩, "d", "r", "PENDING", 5, none⟩,
          ("FAILED" : TransactionStatus)) ∈ specTxnTransitions then
      Transaction.MarkAsFailed
          ⟨"TXN20240729143045001234", some "2024072912345678", none, "DEBIT",
           ⟨⟨40, 0⟩⟩, "d", "r", "PENDING", 5, none⟩ =
        (none, { Transaction.mk "TXN20240729143045001234"
            (some "2024072912345678") none "DEBIT" ⟨⟨40, 0⟩⟩ "d" "r"
            "PENDING" 5 none with status := "FAILED" })
    else ∃ e, Transaction.MarkAsFailed
        ⟨"TXN20240729143045001234", some "2024072912345678", none, "DEBIT",
         ⟨⟨40, 0⟩⟩, "d", "r", "PENDING", 5, none⟩ =
      (some e, ⟨"TXN20240729143045001234", some "2024072912345678", none,
        "DEBIT", ⟨⟨40, 0⟩⟩, "d", "r", "PENDING", 5, none⟩)) ∧
    (if (Transaction.status ⟨"TXN20240729143045001234", some "2024072912345678",
          none, "DEBIT", ⟨⟨40, 0⟩⟩, "d", "r", "PENDING", 5, none⟩,
          ("CANCELLED" : TransactionStatus)) ∈ specTxnTransitions then
      Transaction.MarkAsCancelled
          ⟨"TXN20240729143045001234", some "2024072912345678", none, "DEBIT",
           ⟨⟨40, 0⟩⟩, "d", "r", "PENDING", 5, none⟩ =
        (none, { Transaction.mk "TXN20240729143045001234"
            (some "2024072912345678") none "DEBIT" ⟨⟨40, 0⟩⟩ "d" "r"
            "PENDING" 5 none with status := "CANCELLED" })
    else ∃ e, Transaction.MarkAsCancelled
        ⟨"TXN20240729143045001234", some "2024072912345678", none, "DEBIT",
         ⟨⟨40, 0⟩⟩, "d", "r", "PENDING", 5, none⟩ =
      (some e, ⟨"TXN20240729143045001234", some "2024072912345678", none,
        "DEBIT", ⟨⟨40, 0⟩⟩, "d", "r", "PENDING", 5, none⟩)) :=
  status_transition_tables
    ⟨"2024072912345678", "A", ⟨⟨1, 0⟩⟩, "ACTIVE", 0, 0⟩
    ⟨"TXN20240729143045001234", some "2024072912345678", none, "DEBIT",
     ⟨⟨40, 0⟩⟩, "d", "r", "PENDING", 5, none⟩
    "INACTIVE" 9 (by decide) (by decide) (by decide)

/-! ## Account mutation helper lemmas -/

theorem Account.debit_ok_elim (a : Account) (m : Money) (now : Nat)
    (fa₁ : Account) (h : a.Debit m now = (none, fa₁)) :
    m.IsZero = false ∧ m.IsPositive = true ∧
    fa₁ = { a with
            balance := ⟨a.balance.amount.sub m.amount⟩
            updatedAt := now } := by
  cases hz : m.IsZero with
  | true => simp [Account.Debit, hz] at h
  | false =>
    cases hp : m.IsPositive with
    | false => simp [Account.Debit, hz, hp] at h
    | true =>
      refine ⟨rfl, rfl, ?_⟩
      cases hneg : (a.balance.amount.sub m.amount).isNegative with
      | true =>
        simp [Account.Debit, hz, hp, Money.Subtract, Money.Amount, hneg] at h
      | false =>
        simp [Account.Debit, hz, hp, Money.Subtract, Money.Amount, hneg] at h
        exact h.symm

theorem Account.credit_of_pos (a : Account) (m : Money) (now : Nat)
    (hz : m.IsZero = false) (hp : m.IsPositive = true) :
    a.Credit m now =
      (none, { a with
               balance := ⟨a.balance.amount.add m.amount⟩
               updatedAt := now }) := by
  simp [Account.Credit, hz, hp, Money.Add]

theorem Decimal.sub_add_cancel_equal (a b : Decimal) :
    ((a.sub b).add b).equal a = true := by
  rw [Decimal.equal_iff, Decimal.add_toRat, Decimal.sub_toRat]
  ring

/-! ## Claim C2 -/

/-- C2: for a TRANSFER processed by `processTransferTransaction` over
accounts that exist and can transact: (1) if the debit succeeded and the
credit failed, the credit's error is returned, neither account is persisted,
and the compensating credit restores the source's in-memory balance exactly
to its pre-debit value; (2) the compensating credit applied after a
successful debit always succeeds and restores the pre-debit balance exactly
(in this code a credit of an amount that was successfully debited never
fails, so the guard of (1) cannot in fact fire); (3) both accounts are
persisted exactly when both mutations succeed; (4) on any failure nothing is
persisted. -/
theorem transfer_compensation_spec (env : Env) (s : SysState)
    (t : Transaction) (fid tid : AccountID) (fa ta : Account)
    (hfrom : t.fromAccountID = some fid) (hto : t.toAccountID = some tid)
    (hfa : s.accounts.get fid = some fa) (hta : s.accounts.get tid = some ta)
    (hfc : fa.CanTransact = true) (htc : ta.CanTransact = true) :
    (∀ fa₁ e, fa.Debit t.amount env.now = (none, fa₁) →
      (ta.Credit t.amount env.now).1 = some e →
      processTransferTransaction env s t = (.error (.wrapCredit e), s) ∧
      ((fa₁.Credit t.amount env.now).2).balance.Equal fa.balance = true) ∧
    (∀ fa₁, fa.Debit t.amount env.now = (none, fa₁) →
      (fa₁.Credit t.amount env.now).1 = none ∧
      ((fa₁.Credit t.amount env.now).2).balance.Equal fa.balance = true) ∧
    (∀ fa₁ ta₁, fa.Debit t.amount env.now = (none, fa₁) →
      ta.Credit t.amount env.now = (none, ta₁) →
      processTransferTransaction env s t =
        (.ok (), { s with
          accounts := (s.accounts.set fa₁.id fa₁).set ta₁.id ta₁ })) ∧
    (∀ e, (processTransferTransaction env s t).1 = .error e →
      (processTransferTransaction env s t).2 = s) := by
  have roll : ∀ fa₁, fa.Debit t.amount env.now = (none, fa₁) →
      (fa₁.Credit t.amount env.now).1 = none ∧
      ((fa₁.Credit t.amount env.now).2).balance.Equal fa.balance = true := by
    intro fa₁ hd
    obtain ⟨hz, hp, hfa₁⟩ := Account.debit_ok_elim fa t.amount env.now fa₁ hd
    rw [Account.credit_of_pos fa₁ t.amount env.now hz hp]
    subst hfa₁
    exact ⟨rfl, Decimal.sub_add_cancel_equal fa.balance.amount t.amount.amount⟩
  refine ⟨?_, roll, ?_, ?_⟩
  · intro fa₁ e hd hc
    obtain ⟨hz, hp, _⟩ := Account.debit_ok_elim fa t.amount env.now fa₁ hd
    rw [Account.credit_of_pos ta t.amount env.now hz hp] at hc
    exact absurd hc (by simp)
  · intro fa₁ ta₁ hd hc
    simp [processTransferTransaction, hfrom, hto, hfa, hta, hfc, htc, hd, hc]
  · intro e herr
    rcases hd : fa.Debit t.amount env.now with ⟨derr, fa₁⟩
    cases derr with
    | some e' =>
      simp [processTransferTransaction, hfrom, hto, hfa, hta, hfc, htc, hd]
    | none =>
      rcases hc : ta.Credit t.amount env.now with ⟨cerr, ta₁⟩
      cases cerr with
      | some e' =>
        simp [processTransferTransaction, hfrom, hto, hfa, hta, hfc, htc,
          hd, hc]
      | none =>
        rw [show processTransferTransaction env s t =
            (.ok (), { s with
              accounts := (s.accounts.set fa₁.id fa₁).set ta₁.id ta₁ }) by
          simp [processTransferTransaction, hfrom, hto, hfa, hta, hfc, htc,
            hd, hc]] at herr
        simp at herr

/-- Witness for C2: after debiting 40 from a 100-balance account, the
compensating credit of 40 succeeds and restores a balance `Equal` to 100. -/
theorem transfer_compensation_spec_witness :
    (Account.Credit ⟨"2024072911111111", "A", ⟨⟨60, 0⟩⟩, "ACTIVE", 0, 7⟩
        ⟨⟨40, 0⟩⟩ 7).1 = none ∧
    ((Account.Credit ⟨"2024072911111111", "A", ⟨⟨60, 0⟩⟩, "ACTIVE", 0, 7⟩
        ⟨⟨40, 0⟩⟩ 7).2).balance.Equal ⟨⟨100, 0⟩⟩ = true :=
  (transfer_compensation_spec ⟨7, true⟩
    ⟨[], [("2024072911111111",
            ⟨"2024072911111111", "A", ⟨⟨100, 0⟩⟩, "ACTIVE", 0, 0⟩),
          ("2024072922222222",
            ⟨"2024072922222222", "B", ⟨⟨10, 0⟩⟩, "ACTIVE", 0, 0⟩)], []⟩
    ⟨"TXN20240729143045001234", some "2024072911111111",
     some "2024072922222222", "TRANSFER", ⟨⟨40, 0⟩⟩, "d", "r", "PENDING", 0,
     none⟩
    "2024072911111111" "2024072922222222"
    ⟨"2024072911111111", "A", ⟨⟨100, 0⟩⟩, "ACTIVE", 0, 0⟩
    ⟨"2024072922222222", "B", ⟨⟨10, 0⟩⟩, "ACTIVE", 0, 0⟩
    rfl rfl (by decide) (by decide) (by decide) (by decide)).2.1
    ⟨"2024072911111111", "A", ⟨⟨60, 0⟩⟩, "ACTIVE", 0, 7⟩ (by decide)

/-! ## Error-constructor analysis for the processing pipeline -/

theorem Account.debit_err_elim (a : Account) (m : Money) (now : Nat)
    (e : DomainError) (h : (a.Debit m now).1 = some e) :
    e = .errInvalidTransactionAmount ∨ e = .errInsufficientBalance := by
  cases hz : m.IsZero with
  | true =>
    simp [Account.Debit, hz] at h
    exact .inl h.symm
  | false =>
    cases hp : m.IsPositive with
    | false =>
      simp [Account.Debit, hz, hp] at h
      exact .inl h.symm
    | true =>
      cases hneg : (a.balance.amount.sub m.amount).isNegative with
      | true =>
        simp [Account.Debit, hz, hp, Money.Subtract, Money.Amount, hneg] at h
        exact .inr h.symm
      | false =>
        simp [Account.Debit, hz, hp, Money.Subtract, Money.Amount, hneg] at h

theorem Account.credit_err_elim (a : Account) (m : Money) (now : Nat)
    (e : DomainError) (h : (a.Credit m now).1 = some e) :
    e = .errInvalidTransactionAmount := by
  cases hz : m.IsZero with
  | true =>
    simp [Account.Credit, hz] at h
    exact h.symm
  | false =>
    cases hp : m.IsPositive with
    | false =>
      simp [Account.Credit, hz, hp] at h
      exact h.symm
    | true =>
      simp [Account.Credit, hz, hp, Money.Add] at h

theorem processTransaction_err_ne_inProgress (env : Env) (s : SysState)
    (t : Transaction) (e : DomainError)
    (h : (processTransaction env s t).1 = .error e) :
    e ≠ DomainError.errTransactionAlreadyInProgress := by
  unfold processTransaction at h
  split at h
  · -- DEBIT
    unfold processDebitTransaction at h
    split at h
    · simp at h
      subst h
      simp
    · split at h
      · simp at h
        subst h
        simp
      · split at h
        · simp at h
          subst h
          simp
        · split at h
          · next e' _ heq =>
            simp at h
            subst h
            rcases Account.debit_err_elim _ _ _ e' (by rw [heq]) with h' | h' <;>
              simp [h']
          · simp at h
  · -- CREDIT
    unfold processCreditTransaction at h
    split at h
    · simp at h
      subst h
      simp
    · split at h
      · simp at h
        subst h
        simp
      · split at h
        · simp at h
          subst h
          simp
        · split at h
          · next e' _ heq =>
            simp at h
            subst h
            have := Account.credit_err_elim _ _ _ e' (by rw [heq])
            simp [this]
          · simp at h
  · -- TRANSFER
    unfold processTransferTransaction at h
    split at h
    · simp at h
      subst h
      simp
    · simp at h
      subst h
      simp
    · split at h
      · simp at h
        subst h
        simp
      · split at h
        · simp at h
          subst h
          simp
        · split at h
          · simp at h
            subst h
            simp
          · split at h
            · simp at h
              subst h
              simp
            · split at h
              · simp at h
                subst h
                simp
              · split at h
                · simp at h
                  subst h
                  simp
                · simp at h
  · -- unsupported type
    simp at h
    subst h
    simp

theorem Transaction.markAsCompleted_err_elim (t : Transaction) (now : Nat)
    (e : DomainError) (h : (t.MarkAsCompleted now).1 = some e) :
    ∃ c msg, e = DomainError.businessError c msg := by
  unfold Transaction.MarkAsCompleted at h
  split at h
  · simp at h
    exact ⟨_, _, h.symm⟩
  · simp at h

theorem acquire_ok_true (env : Env) (s : SysState) (k : CacheKey) (b : Bool)
    (s' : SysState) (h : acquireDistributedLock env s k = (.ok b, s')) :
    b = true := by
  unfold acquireDistributedLock cacheSetOp at h
  cases hc : env.cacheOk <;> simp [hc] at h
  exact h.1

theorem confirmProcessPhase_ne_inProgress (env : Env) (s : SysState)
    (id : TransactionID) (txn : Transaction) :
    (confirmProcessPhase env s id txn).1 ≠
      .error DomainError.errTransactionAlreadyInProgress := by
  unfold confirmProcessPhase
  split
  · next e s1 heq =>
    have hne := processTransaction_err_ne_inProgress env s txn e (by rw [heq])
    split <;> simp [hne]
  · next s1 heq =>
    split
    · next e _ heq2 =>
      obtain ⟨c, msg, hbe⟩ :=
        Transaction.markAsCompleted_err_elim txn env.now e (by rw [heq2])
      simp [hbe]
    · simp

theorem confirmLoadPhase_done_ne_inProgress (env : Env) (s : SysState)
    (id : TransactionID) (r : Except DomainError TransactionResponse)
    (s1 : SysState) (h : confirmLoadPhase env s id = (.done r, s1)) :
    r ≠ .error DomainError.errTransactionAlreadyInProgress := by
  simp only [confirmLoadPhase] at h
  split at h
  · simp at h
    rw [← h.1]
    simp
  · split at h
    · simp at h
      rw [← h.1]
      simp
    · next lockAcquired s2 heq =>
      have hb := acquire_ok_true env s _ lockAcquired s2 heq
      subst hb
      split at h
      · next hguard => simp at hguard
      · split at h
        · simp at h
          rw [← h.1]
          simp
        · split at h
          · simp at h
            rw [← h.1]
            simp
          · split at h
            · simp at h
              rw [← h.1]
              simp
            · simp at h

/-! ## Claim C8 -/

/-- C8: lock acquisition is an unconditional cache `Set` — whenever the cache
write succeeds (`env.cacheOk = true`), `acquireDistributedLock` returns
granted and overwrites the key regardless of any existing holder, so
`ConfirmTransaction` can never return `ErrTransactionAlreadyInProgress`. -/
theorem lock_acquisition_unconditional (env : Env) (s : SysState)
    (key : CacheKey) (id : TransactionID) (h : env.cacheOk = true) :
    acquireDistributedLock env s key =
      (.ok true,
        { s with
          cache :=
            s.cache.set key (.lockTok ("lock_" ++ toString env.now)) }) ∧
    (ConfirmTransaction env s id).1 ≠
      .error DomainError.errTransactionAlreadyInProgress := by
  constructor
  · simp [acquireDistributedLock, cacheSetOp, h]
  · unfold ConfirmTransaction
    split
    · next r s1 heq =>
      exact confirmLoadPhase_done_ne_inProgress env s id r s1 heq
    · next txn s1 _ =>
      exact confirmProcessPhase_ne_inProgress env s1 id txn

/-- Witness for C8: with an available cache, acquiring a lock key that is
already held by another token still returns granted, and a concrete
`ConfirmTransaction` call does not fail with already-in-progress. -/
theorem lock_acquisition_unconditional_witness :
    acquireDistributedLock ⟨7, true⟩
        ⟨[], [], [(CacheKey.lockTxn "TXN20240729143045001234",
                   CacheEntry.lockTok "lock_3")]⟩
        (CacheKey.lockTxn "TXN20240729143045001234") =
      (.ok true,
        ⟨[], [],
          Store.set
            [(CacheKey.lockTxn "TXN20240729143045001234",
              CacheEntry.lockTok "lock_3")]
            (CacheKey.lockTxn "TXN20240729143045001234")
            (.lockTok ("lock_" ++ toString (7 : Nat)))⟩) ∧
    (ConfirmTransaction ⟨7, true⟩
        ⟨[], [], [(CacheKey.lockTxn "TXN20240729143045001234",
                   CacheEntry.lockTok "lock_3")]⟩
        "TXN20240729143045001234").1 ≠
      .error DomainError.errTransactionAlreadyInProgress :=
  lock_acquisition_unconditional ⟨7, true⟩
    ⟨[], [], [(CacheKey.lockTxn "TXN20240729143045001234",
               CacheEntry.lockTok "lock_3")]⟩
    (CacheKey.lockTxn "TXN20240729143045001234")
    "TXN20240729143045001234" rfl

/-! ## Claim C6 -/

/-- C6: `Cancel` succeeds only while the transaction is PENDING — any other
status yields `TransactionCannotBeCancelled` and leaves the state unchanged —
and on success sets status CANCELLED; attempting to `Confirm` the transaction
afterwards fails with `TransactionCannotBeConfirmed`. -/
theorem cancel_then_confirm_spec (env : Env) (s : SysState)
    (id : TransactionID) (txn : Transaction)
    (hget : s.transactions.get id = some txn) (hid : txn.id = id)
    (henv : env.cacheOk = true)
    (hcache : cacheGetResponse s (CacheKey.confirmTxn id) = none) :
    (txn.status.IsPending = false →
      CancelTransaction env s id =
        (.error (.errTransactionCannotBeCancelled txn.status), s)) ∧
    (txn.status.IsPending = true →
      ∃ s', CancelTransaction env s id = (.ok (), s') ∧
        s'.transactions.get id = some { txn with status := "CANCELLED" } ∧
        (ConfirmTransaction env s' id).1 =
          .error (.errTransactionCannotBeConfirmed "CANCELLED")) := by
  constructor
  · intro h
    simp [CancelTransaction, hget, h]
  · intro hp
    have hps : txn.status = "PENDING" := by
      simpa [TransactionStatus.IsPending] using hp
    have hmark : txn.MarkAsCancelled =
        (none, { txn with status := "CANCELLED" }) := by
      simp [Transaction.MarkAsCancelled, TransactionStatus.CanTransitionTo,
        hps]
    refine ⟨⟨Store.set s.transactions id { txn with status := "CANCELLED" },
             s.accounts,
             Store.set s.cache (CacheKey.txn id)
               (.response (ToResponse { txn with status := "CANCELLED" }))⟩,
            ?_, ?_, ?_⟩
    · simp [CancelTransaction, hget, hp, hmark, cacheSetOp, henv, hid]
    · rw [Store.get_set_same]
    · have hne1 : (CacheKey.txn id) ≠ (CacheKey.confirmTxn id) := by simp
      have h1 : cacheGetResponse
          ⟨Store.set s.transactions id { txn with status := "CANCELLED" },
           s.accounts,
           Store.set s.cache (CacheKey.txn id)
             (.response (ToResponse { txn with status := "CANCELLED" }))⟩
          (CacheKey.confirmTxn id) = none := by
        unfold cacheGetResponse
        rw [Store.get_set_ne _ _ _ _ hne1]
        exact hcache
      simp [ConfirmTransaction, confirmLoadPhase, h1, acquireDistributedLock,
        cacheSetOp, henv, Store.get_set_same, TransactionStatus.IsCompleted,
        TransactionStatus.CanTransitionTo]

/-- Witness for C6: a concrete PENDING transaction is cancelled, its stored
status becomes CANCELLED, and the subsequent confirmation attempt fails with
`TransactionCannotBeConfirmed`. -/
theorem cancel_then_confirm_spec_witness :
    ∃ s', CancelTransaction ⟨7, true⟩
        ⟨[("TXN20240729143045001234",
           ⟨"TXN20240729143045001234", some "2024072912345678", none,
            "DEBIT", ⟨⟨40, 0⟩⟩, "d", "r", "PENDING", 0, none⟩)], [], []⟩
        "TXN20240729143045001234" = (.ok (), s') ∧
      s'.transactions.get "TXN20240729143045001234" =
        some { Transaction.mk "TXN20240729143045001234"
            (some "2024072912345678") none "DEBIT" ⟨⟨40, 0⟩⟩ "d" "r"
            "PENDING" 0 none with status := "CANCELLED" } ∧
      (ConfirmTransaction ⟨7, true⟩ s' "TXN20240729143045001234").1 =
        .error (.errTransactionCannotBeConfirmed "CANCELLED") :=
  (cancel_then_confirm_spec ⟨7, true⟩
    ⟨[("TXN20240729143045001234",
       ⟨"TXN20240729143045001234", some "2024072912345678", none, "DEBIT",
        ⟨⟨40, 0⟩⟩, "d", "r", "PENDING", 0, none⟩)], [], []⟩
    "TXN20240729143045001234"
    ⟨"TXN20240729143045001234", some "2024072912345678", none, "DEBIT",
     ⟨⟨40, 0⟩⟩, "d", "r", "PENDING", 0, none⟩
    (by decide) rfl rfl rfl).2 (by decide)

/-! ## Cache-shape lemmas for a successful confirmation -/

theorem invalidate_get_ne_account (env : Env) (s : SysState)
    (t : Transaction) (k : CacheKey)
    (hk : ∀ aid, CacheKey.account aid ≠ k) :
    Store.get (invalidateAccountCaches env s t).cache k =
      Store.get s.cache k := by
  rcases hf : t.fromAccountID with _ | fid <;>
    rcases ht : t.toAccountID with _ | tid <;>
      cases hc : env.cacheOk <;>
        simp [invalidateAccountCaches, hf, ht, cacheDelOp, hc,
          Store.get_del_ne, hk]

/-- After a successful `ConfirmTransaction` that actually processed a PENDING
transaction, the idempotency cache holds exactly the returned response, and
that response carries status COMPLETED. -/
theorem confirm_ok_caches (env : Env) (s : SysState) (id : TransactionID)
    (txn : Transaction) (r : TransactionResponse) (s₁ : SysState)
    (henv : env.cacheOk = true)
    (hcache : cacheGetResponse s (CacheKey.confirmTxn id) = none)
    (hget : s.transactions.get id = some txn)
    (hpending : txn.status = "PENDING")
    (h1 : ConfirmTransaction env s id = (.ok r, s₁)) :
    r.status = "COMPLETED" ∧
    cacheGetResponse s₁ (CacheKey.confirmTxn id) = some r := by
  have hload : confirmLoadPhase env s id =
      (.proceed txn,
        ⟨s.transactions, s.accounts,
         s.cache.set (CacheKey.lockTxn id)
           (.lockTok ("lock_" ++ toString env.now))⟩) := by
    simp [confirmLoadPhase, hcache, acquireDistributedLock, cacheSetOp, henv,
      hget, hpending, TransactionStatus.IsCompleted,
      TransactionStatus.CanTransitionTo]
  have hmc : txn.MarkAsCompleted env.now =
      (none, { txn with
               status := "COMPLETED"
               completedAt := some env.now }) := by
    simp [Transaction.MarkAsCompleted, TransactionStatus.CanTransitionTo,
      hpending]
  simp only [ConfirmTransaction, hload] at h1
  simp only [confirmProcessPhase] at h1
  split at h1
  · split at h1 <;> simp at h1
  · next u sB heqp =>
    simp only [hmc] at h1
    rw [Prod.mk.injEq] at h1
    obtain ⟨hr, hs⟩ := h1
    rw [Except.ok.injEq] at hr
    subst hs
    subst hr
    refine ⟨rfl, ?_⟩
    have hlockne : CacheKey.lockTxn id ≠ CacheKey.confirmTxn id := by simp
    have htxnne : CacheKey.txn id ≠ CacheKey.confirmTxn id := by simp
    have haccne : ∀ aid, CacheKey.account aid ≠ CacheKey.confirmTxn id := by
      simp
    unfold cacheGetResponse
    rw [show ∀ s' : SysState, (releaseLock env s' (CacheKey.lockTxn id)).cache
        = Store.del s'.cache (CacheKey.lockTxn id) by
      intro s'
      simp [releaseLock, cacheDelOp, henv]]
    rw [Store.get_del_ne _ _ _ hlockne]
    rw [invalidate_get_ne_account env _ _ _ haccne]
    simp only [cacheSetOp, henv, if_true]
    rw [Store.get_set_ne _ _ _ _ htxnne]
    rw [Store.get_set_same]

/-! ## Claim C3 -/

/-- C3: calling `Confirm` twice in sequence on a stored PENDING transaction
(with no stale idempotency-cache entry) such that the first call succeeds
yields COMPLETED both times with an identical result payload, and the second
call performs no mutation at all: it returns the cached payload and leaves
the entire state — in particular every account — unchanged. -/
theorem confirm_idempotent (env : Env) (s : SysState) (id : TransactionID)
    (txn : Transaction) (r : TransactionResponse) (s₁ : SysState)
    (henv : env.cacheOk = true)
    (hcache : cacheGetResponse s (CacheKey.confirmTxn id) = none)
    (hget : s.transactions.get id = some txn)
    (hpending : txn.status = "PENDING")
    (h1 : ConfirmTransaction env s id = (.ok r, s₁)) :
    r.status = "COMPLETED" ∧ ConfirmTransaction env s₁ id = (.ok r, s₁) := by
  obtain ⟨hst, hhit⟩ :=
    confirm_ok_caches env s id txn r s₁ henv hcache hget hpending h1
  exact ⟨hst, by simp [ConfirmTransaction, confirmLoadPhase, hhit]⟩

/-- Witness for C3: a full concrete run — account with balance 100, DEBIT
transaction of 40 — where the first `Confirm` completes the transaction and
the second returns the identical COMPLETED payload without changing the
state. -/
theorem confirm_idempotent_witness :
    TransactionResponse.status
      ⟨"TXN20240729143045001234", some "2024072911111111", none, "DEBIT",
       ⟨40, 0⟩, "d", "r", "COMPLETED", 0, some 7⟩ = "COMPLETED" ∧
    ConfirmTransaction ⟨7, true⟩
      ⟨[("TXN20240729143045001234",
         ⟨"TXN20240729143045001234", some "2024072911111111", none, "DEBIT",
          ⟨⟨40, 0⟩⟩, "d", "r", "COMPLETED", 0, some 7⟩)],
       [("2024072911111111",
         ⟨"2024072911111111", "A", ⟨⟨60, 0⟩⟩, "ACTIVE", 0, 7⟩)],
       [(CacheKey.confirmTxn "TXN20240729143045001234",
         CacheEntry.response
           ⟨"TXN20240729143045001234", some "2024072911111111", none,
            "DEBIT", ⟨40, 0⟩, "d", "r", "COMPLETED", 0, some 7⟩),
        (CacheKey.txn "TXN20240729143045001234",
         CacheEntry.response
           ⟨"TXN20240729143045001234", some "2024072911111111", none,
            "DEBIT", ⟨40, 0⟩, "d", "r", "COMPLETED", 0, some 7⟩)]⟩
      "TXN20240729143045001234" =
      (.ok ⟨"TXN20240729143045001234", some "2024072911111111", none,
            "DEBIT", ⟨40, 0⟩, "d", "r", "COMPLETED", 0, some 7⟩,
       ⟨[("TXN20240729143045001234",
          ⟨"TXN20240729143045001234", some "2024072911111111", none, "DEBIT",
           ⟨⟨40, 0⟩⟩, "d", "r", "COMPLETED", 0, some 7⟩)],
        [("2024072911111111",
          ⟨"2024072911111111", "A", ⟨⟨60, 0⟩⟩, "ACTIVE", 0, 7⟩)],
        [(CacheKey.confirmTxn "TXN20240729143045001234",
          CacheEntry.response
            ⟨"TXN20240729143045001234", some "2024072911111111", none,
             "DEBIT", ⟨40, 0⟩, "d", "r", "COMPLETED", 0, some 7⟩),
         (CacheKey.txn "TXN20240729143045001234",
          CacheEntry.response
            ⟨"TXN20240729143045001234", some "2024072911111111", none,
             "DEBIT", ⟨40, 0⟩, "d", "r", "COMPLETED", 0, some 7⟩)]⟩) :=
  confirm_idempotent ⟨7, true⟩
    ⟨[("TXN20240729143045001234",
       ⟨"TXN20240729143045001234", some "2024072911111111", none, "DEBIT",
        ⟨⟨40, 0⟩⟩, "d", "r", "PENDING", 0, none⟩)],
     [("2024072911111111",
       ⟨"2024072911111111", "A", ⟨⟨100, 0⟩⟩, "ACTIVE", 0, 0⟩)], []⟩
    "TXN20240729143045001234"
    ⟨"TXN20240729143045001234", some "2024072911111111", none, "DEBIT",
     ⟨⟨40, 0⟩⟩, "d", "r", "PENDING", 0, none⟩
    ⟨"TXN20240729143045001234", some "2024072911111111", none, "DEBIT",
     ⟨40, 0⟩, "d", "r", "COMPLETED", 0, some 7⟩
    ⟨[("TXN20240729143045001234",
       ⟨"TXN20240729143045001234", some "2024072911111111", none, "DEBIT",
        ⟨⟨40, 0⟩⟩, "d", "r", "COMPLETED", 0, some 7⟩)],
     [("2024072911111111",
       ⟨"2024072911111111", "A", ⟨⟨60, 0⟩⟩, "ACTIVE", 0, 7⟩)],
     [(CacheKey.confirmTxn "TXN20240729143045001234",
       CacheEntry.response
         ⟨"TXN20240729143045001234", some "2024072911111111", none, "DEBIT",
          ⟨40, 0⟩, "d", "r", "COMPLETED", 0, some 7⟩),
      (CacheKey.txn "TXN20240729143045001234",
       CacheEntry.response
         ⟨"TXN20240729143045001234", some "2024072911111111", none, "DEBIT",
          ⟨40, 0⟩, "d", "r", "COMPLETED", 0, some 7⟩)]⟩
    rfl rfl (by decide) rfl (by decide)

/-! ## Claim C9 -/

/-- C9 counterexample: two concurrent `Confirm` calls for the same id can
BOTH perform a successful state mutation. `ConfirmTransaction` is by
definition the sequential composition of `confirmLoadPhase` (idempotency
check, lock acquisition, transaction load and status checks) and
`confirmProcessPhase` (account mutation, completion, persistence, caching,
lock release); a concurrent execution interleaves these halves of the two
calls against the shared state. Because lock acquisition is a plain cache
`Set`, the schedule A-load, B-load, A-process, B-process lets both calls pass
every check with a PENDING copy: both return success and the account is
debited twice (100 → 60 → 20), refuting "exactly one successful state
mutation with the other call short-circuiting or failing with
`TransactionAlreadyInProgress`". -/
theorem concurrent_confirms_both_mutate :
    confirmLoadPhase ⟨7, true⟩
      ⟨[("TXN20240729143045001234",
         ⟨"TXN20240729143045001234", some "2024072911111111", none, "DEBIT",
          ⟨⟨40, 0⟩⟩, "d", "r", "PENDING", 0, none⟩)],
       [("2024072911111111",
         ⟨"2024072911111111", "A", ⟨⟨100, 0⟩⟩, "ACTIVE", 0, 0⟩)], []⟩
      "TXN20240729143045001234" =
      (.proceed
        ⟨"TXN20240729143045001234", some "2024072911111111", none, "DEBIT",
         ⟨⟨40, 0⟩⟩, "d", "r", "PENDING", 0, none⟩,
       ⟨[("TXN20240729143045001234",
          ⟨"TXN20240729143045001234", some "2024072911111111", none, "DEBIT",
           ⟨⟨40, 0⟩⟩, "d", "r", "PENDING", 0, none⟩)],
        [("2024072911111111",
          ⟨"2024072911111111", "A", ⟨⟨100, 0⟩⟩, "ACTIVE", 0, 0⟩)],
        [(CacheKey.lockTxn "TXN20240729143045001234",
          CacheEntry.lockTok "lock_7")]⟩) ∧
    confirmLoadPhase ⟨7, true⟩
      ⟨[("TXN20240729143045001234",
         ⟨"TXN20240729143045001234", some "2024072911111111", none, "DEBIT",
          ⟨⟨40, 0⟩⟩, "d", "r", "PENDING", 0, none⟩)],
       [("2024072911111111",
         ⟨"2024072911111111", "A", ⟨⟨100, 0⟩⟩, "ACTIVE", 0, 0⟩)],
       [(CacheKey.lockTxn "TXN20240729143045001234",
         CacheEntry.lockTok "lock_7")]⟩
      "TXN20240729143045001234" =
      (.proceed
        ⟨"TXN20240729143045001234", some "2024072911111111", none, "DEBIT",
         ⟨⟨40, 0⟩⟩, "d", "r", "PENDING", 0, none⟩,
       ⟨[("TXN20240729143045001234",
          ⟨"TXN20240729143045001234", some "2024072911111111", none, "DEBIT",
           ⟨⟨40, 0⟩⟩, "d", "r", "PENDING", 0, none⟩)],
        [("2024072911111111",
          ⟨"2024072911111111", "A", ⟨⟨100, 0⟩⟩, "ACTIVE", 0, 0⟩)],
        [(CacheKey.lockTxn "TXN20240729143045001234",
          CacheEntry.lockTok "lock_7")]⟩) ∧
    confirmProcessPhase ⟨7, true⟩
      ⟨[("TXN20240729143045001234",
         ⟨"TXN20240729143045001234", some "2024072911111111", none, "DEBIT",
          ⟨⟨40, 0⟩⟩, "d", "r", "PENDING", 0, none⟩)],
       [("2024072911111111",
         ⟨"2024072911111111", "A", ⟨⟨100, 0⟩⟩, "ACTIVE", 0, 0⟩)],
       [(CacheKey.lockTxn "TXN20240729143045001234",
         CacheEntry.lockTok "lock_7")]⟩
      "TXN20240729143045001234"
      ⟨"TXN20240729143045001234", some "2024072911111111", none, "DEBIT",
       ⟨⟨40, 0⟩⟩, "d", "r", "PENDING", 0, none⟩ =
      (.ok ⟨"TXN20240729143045001234", some "2024072911111111", none,
            "DEBIT", ⟨40, 0⟩, "d", "r", "COMPLETED", 0, some 7⟩,
       ⟨[("TXN20240729143045001234",
          ⟨"TXN20240729143045001234", some "2024072911111111", none, "DEBIT",
           ⟨⟨40, 0⟩⟩, "d", "r", "COMPLETED", 0, some 7⟩)],
        [("2024072911111111",
          ⟨"2024072911111111", "A", ⟨⟨60, 0⟩⟩, "ACTIVE", 0, 7⟩)],
        [(CacheKey.confirmTxn "TXN20240729143045001234",
          CacheEntry.response
            ⟨"TXN20240729143045001234", some "2024072911111111", none,
             "DEBIT", ⟨40, 0⟩, "d", "r", "COMPLETED", 0, some 7⟩),
         (CacheKey.txn "TXN20240729143045001234",
          CacheEntry.response
            ⟨"TXN20240729143045001234", some "2024072911111111", none,
             "DEBIT", ⟨40, 0⟩, "d", "r", "COMPLETED", 0, some 7⟩)]⟩) ∧
    confirmProcessPhase ⟨7, true⟩
      ⟨[("TXN20240729143045001234",
         ⟨"TXN20240729143045001234", some "2024072911111111", none, "DEBIT",
          ⟨⟨40, 0⟩⟩, "d", "r", "COMPLETED", 0, some 7⟩)],
       [("2024072911111111",
         ⟨"2024072911111111", "A", ⟨⟨60, 0⟩⟩, "ACTIVE", 0, 7⟩)],
       [(CacheKey.confirmTxn "TXN20240729143045001234",
         CacheEntry.response
           ⟨"TXN20240729143045001234", some "2024072911111111", none,
            "DEBIT", ⟨40, 0⟩, "d", "r", "COMPLETED", 0, some 7⟩),
        (CacheKey.txn "TXN20240729143045001234",
         CacheEntry.response
           ⟨"TXN20240729143045001234", some "2024072911111111", none,
            "DEBIT", ⟨40, 0⟩, "d", "r", "COMPLETED", 0, some 7⟩)]⟩
      "TXN20240729143045001234"
      ⟨"TXN20240729143045001234", some "2024072911111111", none, "DEBIT",
       ⟨⟨40, 0⟩⟩, "d", "r", "PENDING", 0, none⟩ =
      (.ok ⟨"TXN20240729143045001234", some "2024072911111111", none,
            "DEBIT", ⟨40, 0⟩, "d", "r", "COMPLETED", 0, some 7⟩,
       ⟨[("TXN20240729143045001234",
          ⟨"TXN20240729143045001234", some "2024072911111111", none, "DEBIT",
           ⟨⟨40, 0⟩⟩, "d", "r", "COMPLETED", 0, some 7⟩)],
        [("2024072911111111",
          ⟨"2024072911111111", "A", ⟨⟨20, 0⟩⟩, "ACTIVE", 0, 7⟩)],
        [(CacheKey.confirmTxn "TXN20240729143045001234",
          CacheEntry.response
            ⟨"TXN20240729143045001234", some "2024072911111111", none,
             "DEBIT", ⟨40, 0⟩, "d", "r", "COMPLETED", 0, some 7⟩),
         (CacheKey.txn "TXN20240729143045001234",
          CacheEntry.response
            ⟨"TXN20240729143045001234", some "2024072911111111", none,
             "DEBIT", ⟨40, 0⟩, "d", "r", "COMPLETED", 0, some 7⟩)]⟩) := by
  refine ⟨by decide, by decide, by decide, by decide⟩

/-- C9 amended: for sequential (non-interleaved) `Confirm` calls the claim
holds: once a first call has succeeded on a stored PENDING transaction,
every later call returns the identical cached COMPLETED payload and performs
no state mutation at all — exactly one call mutates state. Under
interleaving the lock does not guarantee this, since its acquisition is an
unconditional cache `Set`. -/
theorem confirm_sequential_exactly_once (env : Env) (s : SysState)
    (id : TransactionID) (txn : Transaction) (r : TransactionResponse)
    (s₁ : SysState) (n : Nat) (henv : env.cacheOk = true)
    (hcache : cacheGetResponse s (CacheKey.confirmTxn id) = none)
    (hget : s.transactions.get id = some txn)
    (hpending : txn.status = "PENDING")
    (h1 : ConfirmTransaction env s id = (.ok r, s₁)) :
    ConfirmTransaction env s₁ id = (.ok r, s₁) ∧
    (fun st => (ConfirmTransaction env st id).2)^[n] s₁ = s₁ := by
  obtain ⟨hst, hhit⟩ :=
    confirm_ok_caches env s id txn r s₁ henv hcache hget hpending h1
  have hfix : ConfirmTransaction env s₁ id = (.ok r, s₁) := by
    simp [ConfirmTransaction, confirmLoadPhase, hhit]
  refine ⟨hfix, Function.iterate_fixed ?_ n⟩
  simp [hfix]

/-- Witness for C9 (amended): the concrete first run of the C3 scenario,
iterated three further times, never changes the state again. -/
theorem confirm_sequential_exactly_once_witness :
    ConfirmTransaction ⟨7, true⟩
      ⟨[("TXN20240729143045001234",
         ⟨"TXN20240729143045001234", some "2024072911111111", none, "DEBIT",
          ⟨⟨40, 0⟩⟩, "d", "r", "COMPLETED", 0, some 7⟩)],
       [("2024072911111111",
         ⟨"2024072911111111", "A", ⟨⟨60, 0⟩⟩, "ACTIVE", 0, 7⟩)],
       [(CacheKey.confirmTxn "TXN20240729143045001234",
         CacheEntry.response
           ⟨"TXN20240729143045001234", some "2024072911111111", none,
            "DEBIT", ⟨40, 0⟩, "d", "r", "COMPLETED", 0, some 7⟩),
        (CacheKey.txn "TXN20240729143045001234",
         CacheEntry.response
           ⟨"TXN20240729143045001234", some "2024072911111111", none,
            "DEBIT", ⟨40, 0⟩, "d", "r", "COMPLETED", 0, some 7⟩)]⟩
      "TXN20240729143045001234" =
      (.ok ⟨"TXN20240729143045001234", some "2024072911111111", none,
            "DEBIT", ⟨40, 0⟩, "d", "r", "COMPLETED", 0, some 7⟩,
       ⟨[("TXN20240729143045001234",
          ⟨"TXN20240729143045001234", some "2024072911111111", none, "DEBIT",
           ⟨⟨40, 0⟩⟩, "d", "r", "COMPLETED", 0, some 7⟩)],
        [("2024072911111111",
          ⟨"2024072911111111", "A", ⟨⟨60, 0⟩⟩, "ACTIVE", 0, 7⟩)],
        [(CacheKey.confirmTxn "TXN20240729143045001234",
          CacheEntry.response
            ⟨"TXN20240729143045001234", some "2024072911111111", none,
             "DEBIT", ⟨40, 0⟩, "d", "r", "COMPLETED", 0, some 7⟩),
         (CacheKey.txn "TXN20240729143045001234",
          CacheEntry.response
            ⟨"TXN20240729143045001234", some "2024072911111111", none,
             "DEBIT", ⟨40, 0⟩, "d", "r", "COMPLETED", 0, some 7⟩)]⟩) ∧
    (fun st => (ConfirmTransaction ⟨7, true⟩ st
        "TXN20240729143045001234").2)^[3]
      ⟨[("TXN20240729143045001234",
         ⟨"TXN20240729143045001234", some "2024072911111111", none, "DEBIT",
          ⟨⟨40, 0⟩⟩, "d", "r", "COMPLETED", 0, some 7⟩)],
       [("2024072911111111",
         ⟨"2024072911111111", "A", ⟨⟨60, 0⟩⟩, "ACTIVE", 0, 7⟩)],
       [(CacheKey.confirmTxn "TXN20240729143045001234",
         CacheEntry.response
           ⟨"TXN20240729143045001234", some "2024072911111111", none,
            "DEBIT", ⟨40, 0⟩, "d", "r", "COMPLETED", 0, some 7⟩),
        (CacheKey.txn "TXN20240729143045001234",
         CacheEntry.response
           ⟨"TXN20240729143045001234", some "2024072911111111", none,
            "DEBIT", ⟨40, 0⟩, "d", "r", "COMPLETED", 0, some 7⟩)]⟩ =
      ⟨[("TXN20240729143045001234",
         ⟨"TXN20240729143045001234", some "2024072911111111", none, "DEBIT",
          ⟨⟨40, 0⟩⟩, "d", "r", "COMPLETED", 0, some 7⟩)],
       [("2024072911111111",
         ⟨"2024072911111111", "A", ⟨⟨60, 0⟩⟩, "ACTIVE", 0, 7⟩)],
       [(CacheKey.confirmTxn "TXN20240729143045001234",
         CacheEntry.response
           ⟨"TXN20240729143045001234", some "2024072911111111", none,
            "DEBIT", ⟨40, 0⟩, "d", "r", "COMPLETED", 0, some 7⟩),
        (CacheKey.txn "TXN20240729143045001234",
         CacheEntry.response
           ⟨"TXN20240729143045001234", some "2024072911111111", none,
            "DEBIT", ⟨40, 0⟩, "d", "r", "COMPLETED", 0, some 7⟩)]⟩ :=
  confirm_sequential_exactly_once ⟨7, true⟩
    ⟨[("TXN20240729143045001234",
       ⟨"TXN20240729143045001234", some "2024072911111111", none, "DEBIT",
        ⟨⟨40, 0⟩⟩, "d", "r", "PENDING", 0, none⟩)],
     [("2024072911111111",
       ⟨"2024072911111111", "A", ⟨⟨100, 0⟩⟩, "ACTIVE", 0, 0⟩)], []⟩
    "TXN20240729143045001234"
    ⟨"TXN20240729143045001234", some "2024072911111111", none, "DEBIT",
     ⟨⟨40, 0⟩⟩, "d", "r", "PENDING", 0, none⟩
    ⟨"TXN20240729143045001234", some "2024072911111111", none, "DEBIT",
     ⟨40, 0⟩, "d", "r", "COMPLETED", 0, some 7⟩
    ⟨[("TXN20240729143045001234",
       ⟨"TXN20240729143045001234", some "2024072911111111", none, "DEBIT",
        ⟨⟨40, 0⟩⟩, "d", "r", "COMPLETED", 0, some 7⟩)],
     [("2024072911111111",
       ⟨"2024072911111111", "A", ⟨⟨60, 0⟩⟩, "ACTIVE", 0, 7⟩)],
     [(CacheKey.confirmTxn "TXN20240729143045001234",
       CacheEntry.response
         ⟨"TXN20240729143045001234", some "2024072911111111", none, "DEBIT",
          ⟨40, 0⟩, "d", "r", "COMPLETED", 0, some 7⟩),
      (CacheKey.txn "TXN20240729143045001234",
       CacheEntry.response
         ⟨"TXN20240729143045001234", some "2024072911111111", none, "DEBIT",
          ⟨40, 0⟩, "d", "r", "COMPLETED", 0, some 7⟩)]⟩
    3 rfl rfl (by decide) rfl (by decide)

end MiniBank
